import Mathlib

/-!
Formal model of the training script `train_GlasXC.py` of the GlasXC
repository (extreme multi-label classification with a GLAS label
co-occurrence regularizer).

The script's algorithmic core is embedded shallowly:

* matrices are `Matrix (Fin s) (Fin l) ℚ` (rows = samples of the batch,
  columns = labels); exact rational arithmetic stands for the script's
  floating-point tensor arithmetic;
* the model's label-embedding function `Glas_XC.encode_output` is an
  opaque parameter `enc` (the spec treats model internals as a black box);
  for the subtraction `V - M` in the source to be well-formed the
  embedding dimension must equal the label dimension, so `enc` maps
  `s × l` matrices to `s × l` matrices;
* `torch.inverse` applied to the diagonal matrix `Z` raises on a singular
  input; this fallible step is modeled with `Option`, `none` standing for
  the raised error;
* `torch.norm(g, p = 'fro')` followed by the squaring `gl*gl` is modeled
  directly by the squared Frobenius norm `frobSq` (over the reals,
  `‖g‖·‖g‖ = Σ g i j ^ 2` exactly);
* Python's `%` on integers is floor-remainder and raises
  `ZeroDivisionError` on a zero modulus; it is modeled by `pyMod` using
  `Int.fdiv` (floor division), returning `none` on a zero modulus;
* the name-scoping facts of the label-subsampling block (lines 174-180 of
  the source) are modeled by explicit lists of the Python names bound at
  that point and of the names the loss computation reads;
* `nn.Module.to('cpu')` mutates a module in place; module device placement
  is modeled by explicit state passing of a `ModelState` record.
-/

set_option linter.unusedVariables false

open Matrix

namespace TrainGlasXC

/-- Source line 156: `mean = 0.5`. -/
def mean : ℚ := 1 / 2

/-- Source line 157: `div = 1/math.pow(2456,2)`. -/
def div : ℚ := 1 / 2456 ^ 2

/-- Source line 155: `LAMBDA = 10`. -/
def LAMBDA : ℚ := 10

/-- Source line 186: `A = torch.mm(y.t(), y)`, the raw label co-occurrence
matrix of the batch label matrix `Y`. -/
def Amat {s l : ℕ} (Y : Matrix (Fin s) (Fin l) ℚ) : Matrix (Fin l) (Fin l) ℚ :=
  Yᵀ * Y

/-- Source line 187: `Z = torch.diag(A)` — the diagonal of `A` as a vector
(the per-label marginal counts). -/
def Zdiag {s l : ℕ} (Y : Matrix (Fin s) (Fin l) ℚ) (i : Fin l) : ℚ :=
  Amat Y i i

/-- Source line 188: `Z = torch.diag(Z)` — the diagonal matrix rebuilt from
the diagonal vector of `A`. -/
def Zmat {s l : ℕ} (Y : Matrix (Fin s) (Fin l) ℚ) : Matrix (Fin l) (Fin l) ℚ :=
  Matrix.diagonal (Zdiag Y)

/-- `torch.inverse` applied to a diagonal matrix with diagonal vector `d`:
it raises (here: `none`) exactly when the matrix is singular, i.e. exactly
when some diagonal entry is zero; otherwise it returns the diagonal matrix
of the reciprocals. -/
def torchInverseDiag {n : ℕ} (d : Fin n → ℚ) : Option (Matrix (Fin n) (Fin n) ℚ) :=
  if ∀ i, d i ≠ 0 then some (Matrix.diagonal fun i => (d i)⁻¹) else none

/-- The inverse of `Zmat Y` (total function; meaningful when no diagonal
entry of `A` is zero, which is exactly when `torchInverseDiag` succeeds). -/
def Zinv {s l : ℕ} (Y : Matrix (Fin s) (Fin l) ℚ) : Matrix (Fin l) (Fin l) ℚ :=
  Matrix.diagonal fun i => (Zdiag Y i)⁻¹

/-- Squared Frobenius norm: the source computes `gl = torch.norm(g, p='fro')`
and then uses `gl*gl`, which equals the sum of the squared entries. -/
def frobSq {a b : ℕ} (m : Matrix (Fin a) (Fin b) ℚ) : ℚ :=
  ∑ i, ∑ j, m i j * m i j

/-- Source lines 184-185: `v = Glas_XC.encode_output(y)` and
`V = torch.mm(v.t(), v)` — latent co-occurrence of the batch labels. -/
def Vmat {s l : ℕ} (enc : Matrix (Fin s) (Fin l) ℚ → Matrix (Fin s) (Fin l) ℚ)
    (Y : Matrix (Fin s) (Fin l) ℚ) : Matrix (Fin l) (Fin l) ℚ :=
  (enc Y)ᵀ * enc Y

/-- Source line 189: `AZ = torch.add(torch.mm(A, torch.inverse(Z)), torch.mm(torch.inverse(Z), A))`. -/
def AZmat {s l : ℕ} (Y : Matrix (Fin s) (Fin l) ℚ) : Matrix (Fin l) (Fin l) ℚ :=
  Amat Y * Zinv Y + Zinv Y * Amat Y

/-- Source line 190: `M = mean*AZ`. -/
def Mmat {s l : ℕ} (Y : Matrix (Fin s) (Fin l) ℚ) : Matrix (Fin l) (Fin l) ℚ :=
  mean • AZmat Y

/-- Source lines 184-193, the GLAS regularizer loss of one batch:
`v = encode_output(y)`, `V = vᵀv`, `A = yᵀy`, `Z = diag(diag(A))`,
`AZ = A·Z⁻¹ + Z⁻¹·A`, `M = mean·AZ`, `g = V − M`,
`loss_glas = div * ‖g‖_F²`. `none` models the error raised by
`torch.inverse(Z)` on a singular `Z`. -/
def loss_glas {s l : ℕ} (enc : Matrix (Fin s) (Fin l) ℚ → Matrix (Fin s) (Fin l) ℚ)
    (Y : Matrix (Fin s) (Fin l) ℚ) : Option ℚ :=
  match torchInverseDiag (Zdiag Y) with
  | none => none
  | some Zi => some (div * frobSq (Vmat enc Y - mean • (Amat Y * Zi + Zi * Amat Y)))

/-- Source lines 184-193 again, but with the three results of the label
subsampling block (lines 178-180: `t3`, `indices`, `y_sampled`) explicitly
in scope, as they are at that point of the script.  The body is the
transcription of lines 184-193, which mention none of the three: both the
latent co-occurrence `V` and the raw co-occurrence `A` are computed from
the full batch label matrix `y`. -/
def loss_glas_after_sampling {σ₁ σ₂ σ₃ : Type} (t3 : σ₁) (indices : σ₂) (y_sampled : σ₃)
    {s l : ℕ} (enc : Matrix (Fin s) (Fin l) ℚ → Matrix (Fin s) (Fin l) ℚ)
    (Y : Matrix (Fin s) (Fin l) ℚ) : Option ℚ :=
  match torchInverseDiag (Zdiag Y) with
  | none => none
  | some Zi => some (div * frobSq (Vmat enc Y - mean • (Amat Y * Zi + Zi * Amat Y)))

/-- The Python names in scope at source line 178
(`t3 = numpy.random.choice(t2, batch_size, replace=False)`): the names
bound by the imports of lines 1-16 (note line 15 binds `np`, not `numpy`),
the module-level assignments of lines 19-157 (note the batch size lives in
`args`, there is no bare `batch_size` binding), and the loop-local
assignments of lines 160-176 that precede line 178. -/
def scopeNamesAtSampling : List String :=
  ["datetime", "partial", "plt", "gs", "ArgumentParser", "ArgumentDefaultsHelpFormatter",
   "GlasXC", "LibSVMLoader", "precision_at_k", "ndcg_score_at_k",
   "math", "os", "yaml", "torch", "np", "F",
   "weights_init", "TIME_STAMP", "parser", "args", "cur_device", "USE_CUDA",
   "input_enc_cfg", "input_dec_cfg", "output_enc_cfg", "output_dec_cfg", "regress_cfg",
   "Glas_XC", "opt_options", "optimizer", "loader_kwargs", "dset_opts", "USE_TEST_DSET",
   "train_file", "train_loader", "len_loader", "train_data_loader",
   "test_file", "test_loader", "test_data_loader",
   "all_iters", "ALPHA_INPUT", "ALPHA_OUTPUT", "K",
   "INP_REC_LOSS", "OTP_REC_LOSS", "CLASS_LOSS", "AVG_P_AT_K", "AVG_NDCG_AT_K",
   "LAMBDA", "mean", "div",
   "epoch", "cur_no", "x", "y", "inp_ae_fp", "out_ae_fp", "reg_fp",
   "valid_idx", "t", "t1", "t2"]

/-- The Python names read by the GLAS loss computation, source lines
184-193 (right-hand sides only). -/
def glasComputationReads : List String :=
  ["Glas_XC", "y", "torch", "v", "V", "A", "Z", "AZ", "M", "g", "gl", "mean", "div"]

/-- Result of one per-batch training step (source lines 207-217): the
classification loss `loss_class`, the value `net_loss` passed to
`backward()`, and the scalar appended to `CLASS_LOSS`. -/
structure BatchStepResult where
  loss_class : ℚ
  net_loss : ℚ
  recorded_class_loss : ℚ

/-- Source lines 208-217 of one batch step:
`loss_class = F.binary_cross_entropy(reg_fp, y) + LAMBDA * loss_glas`,
`net_loss = loss_class`, `net_loss.backward()`,
`CLASS_LOSS.append(loss_class.item())`.  The binary cross-entropy value
between the predicted and true label vectors is the opaque parameter
`bce` (the metric itself is external to the modeled core).  `none`
propagates the failure of the GLAS computation. -/
def batchStep {s l : ℕ} (bce : ℚ)
    (enc : Matrix (Fin s) (Fin l) ℚ → Matrix (Fin s) (Fin l) ℚ)
    (Y : Matrix (Fin s) (Fin l) ℚ) : Option BatchStepResult :=
  match loss_glas enc Y with
  | none => none
  | some lg =>
    let lc := bce + LAMBDA * lg
    let ln := lc
    some { loss_class := lc, net_loss := ln, recorded_class_loss := lc }

/-- Python's integer `%`: floor-remainder `a - b * (a // b)` with `//` the
floor division `Int.fdiv`; raises `ZeroDivisionError` (here: `none`) on a
zero modulus. -/
def pyMod (a b : Int) : Option Int :=
  if b = 0 then none else some (a - b * Int.fdiv a b)

/-- Source lines 213-215: the guard `all_iters % args.interval == 0` of the
per-interval progress print.  `some true` means the log line is emitted,
`some false` means it is not, `none` means evaluating the guard raises
`ZeroDivisionError`. -/
def intervalLogFires (interval : Int) (all_iters : Int) : Option Bool :=
  (pyMod all_iters interval).map fun r => r == 0

/-- Source lines 67-68: `parser.add_argument('--interval', type=int, default=-1, ...)`. -/
def interval_default : Int := -1

/-- The shuffle/batch-size configuration of a `torch.utils.data.DataLoader`. -/
structure DataLoaderConfig where
  shuffle : Bool
  batch_size : ℕ
deriving DecidableEq

/-- Source lines 135-136: `DataLoader(train_loader, batch_size=args.batch_size, shuffle=True, ...)`. -/
def train_data_loader (batch : ℕ) : DataLoaderConfig :=
  { shuffle := true, batch_size := batch }

/-- Source lines 141-142: `DataLoader(test_loader, batch_size=1000, shuffle=False)`. -/
def test_data_loader : DataLoaderConfig :=
  { shuffle := false, batch_size := 1000 }

/-- The three kinds of dataset passes the script performs: the training
iteration of an epoch (line 162), the per-epoch evaluation over the
training set (line 221), and the final test-set evaluation (line 282). -/
inductive LoopPass
  | trainingEpoch
  | epochEval
  | testEval
deriving DecidableEq

/-- Which data loader each pass iterates: lines 162 and 221 both iterate
`train_data_loader`, line 282 iterates `test_data_loader`. -/
def passLoader (batch : ℕ) : LoopPass → DataLoaderConfig
  | LoopPass.trainingEpoch => train_data_loader batch
  | LoopPass.epochEval => train_data_loader batch
  | LoopPass.testEval => test_data_loader

/-- The three conditional blocks that run after the epoch loop. -/
inductive RunEndAction
  | plotGraphs
  | saveModel
  | testEval
deriving DecidableEq

/-- Source lines 237-293, in program order: `if args.plot:` (line 237),
`if args.save_model is not None:` (line 259), `if USE_TEST_DSET:`
(line 278). -/
def runEndActions (plot save useTest : Bool) : List RunEndAction :=
  (if plot then [RunEndAction.plotGraphs] else [])
    ++ (if save then [RunEndAction.saveModel] else [])
    ++ (if useTest then [RunEndAction.testEval] else [])

/-- A torch device: `cpu` or an accelerator device. -/
inductive Device
  | cpu
  | cuda (idx : ℕ)
deriving DecidableEq

/-- The device placement of the five submodules of the `Glas_XC` model. -/
structure ModelState where
  input_encoder : Device
  input_decoder : Device
  output_encoder : Device
  output_decoder : Device
  regressor : Device
deriving DecidableEq

/-- The choices of `--save_model` (source lines 81-83). -/
inductive SaveOption
  | all
  | inputAE
  | outputAE
  | regressor
deriving DecidableEq

/-- Source lines 259-274: each `torch.save(Glas_XC.<sub>.to('cpu'), ...)`
call moves the submodule to the CPU in place (`nn.Module.to` mutates the
module), so the block is a state transformer on the model's device
placement. -/
def saveModelBlock (save_model : List SaveOption) (m : ModelState) : ModelState :=
  let m1 := if SaveOption.inputAE ∈ save_model ∨ SaveOption.all ∈ save_model then
    { m with input_encoder := Device.cpu, input_decoder := Device.cpu } else m
  let m2 := if SaveOption.outputAE ∈ save_model ∨ SaveOption.all ∈ save_model then
    { m1 with output_encoder := Device.cpu, output_decoder := Device.cpu } else m1
  if SaveOption.regressor ∈ save_model ∨ SaveOption.all ∈ save_model then
    { m2 with regressor := Device.cpu } else m2

/-- The model's device placement when the test-set prediction of lines
278-293 runs: the save block (lines 259-274) executes before it whenever a
save directive was given (`args.save_model is not None`), otherwise the
model is untouched. -/
def modelAtTestPrediction (save_model : Option (List SaveOption)) (m : ModelState) : ModelState :=
  match save_model with
  | none => m
  | some opts => saveModelBlock opts m

/-- Concrete batch label matrix of the spec's scenario:
`Y = [[1,0,1],[0,1,1]]` (2 samples, 3 labels). -/
def Yex : Matrix (Fin 2) (Fin 3) ℚ := !![1,0,1; 0,1,1]

/-- A concrete (constant-zero) stand-in for `encode_output` on 2×3 batches. -/
def encYex : Matrix (Fin 2) (Fin 3) ℚ → Matrix (Fin 2) (Fin 3) ℚ := fun _ => 0

/-- Concrete one-sample, one-label batch label matrix. -/
def YW1 : Matrix (Fin 1) (Fin 1) ℚ := !![1]

/-- A concrete stand-in for `encode_output` on 1×1 batches, chosen so that
the latent co-occurrence matches the mean-scaled normalized co-occurrence. -/
def encW1 : Matrix (Fin 1) (Fin 1) ℚ → Matrix (Fin 1) (Fin 1) ℚ := fun _ => !![1]

/-- A concrete model placement with every submodule on an accelerator. -/
def mW : ModelState :=
  { input_encoder := Device.cuda 0, input_decoder := Device.cuda 0,
    output_encoder := Device.cuda 0, output_decoder := Device.cuda 0,
    regressor := Device.cuda 0 }

/-- When every diagonal entry of `Z` is nonzero, `torch.inverse(Z)` succeeds
and the GLAS loss is `div * ‖V − M‖_F²`. -/
theorem loss_glas_of_nonzero {s l : ℕ}
    (enc : Matrix (Fin s) (Fin l) ℚ → Matrix (Fin s) (Fin l) ℚ)
    (Y : Matrix (Fin s) (Fin l) ℚ) (h : ∀ i, Zdiag Y i ≠ 0) :
    loss_glas enc Y = some (div * frobSq (Vmat enc Y - Mmat Y)) := by
  unfold loss_glas torchInverseDiag
  rw [if_pos h]
  rfl

/-- The GLAS computation fails exactly when some diagonal entry of `Z`
(i.e. of `A`) is zero. -/
theorem loss_glas_eq_none_iff {s l : ℕ}
    (enc : Matrix (Fin s) (Fin l) ℚ → Matrix (Fin s) (Fin l) ℚ)
    (Y : Matrix (Fin s) (Fin l) ℚ) :
    loss_glas enc Y = none ↔ ∃ i, Zdiag Y i = 0 := by
  unfold loss_glas torchInverseDiag
  by_cases h : ∀ i, Zdiag Y i ≠ 0
  · rw [if_pos h]
    constructor
    · intro hc
      exact absurd hc (by simp)
    · rintro ⟨i, hi⟩
      exact absurd hi (h i)
  · rw [if_neg h]
    push_neg at h
    simpa using h

/-- The squared Frobenius norm is nonnegative. -/
theorem frobSq_nonneg {a b : ℕ} (m : Matrix (Fin a) (Fin b) ℚ) : 0 ≤ frobSq m :=
  Finset.sum_nonneg fun _ _ => Finset.sum_nonneg fun _ _ => mul_self_nonneg _

/-- Floor division by `-1` is exact negation. -/
theorem fdiv_negOne (a : Int) : Int.fdiv a (-1) = -a := by
  have h1 : (-1 : Int) ∣ a := ⟨-a, by ring⟩
  rw [Int.fdiv_eq_ediv_of_dvd h1]
  omega

/-- Every diagonal entry of `A` at the scenario matrix `Yex` is nonzero. -/
theorem Yex_Zdiag_ne_zero : ∀ i, Zdiag Yex i ≠ 0 := by
  intro i
  fin_cases i <;>
    norm_num [Zdiag, Amat, Matrix.mul_apply, Fin.sum_univ_succ, Yex]

/-- The scenario matrix `Yex` is binary. -/
theorem Yex_binary : ∀ i j, Yex i j = 0 ∨ Yex i j = 1 := by
  intro i j
  fin_cases i <;> fin_cases j <;> norm_num [Yex]

/-- No column of the scenario matrix `Yex` is all-zero. -/
theorem Yex_no_zero_col : ∀ j, ∃ i, Yex i j ≠ 0 := by
  intro j
  fin_cases j
  · exact ⟨0, by norm_num [Yex]⟩
  · exact ⟨1, by norm_num [Yex]⟩
  · exact ⟨0, by norm_num [Yex]⟩

/-- Evaluation of the GLAS loss on the one-sample, one-label batch `YW1`
with the embedding `encW1`: the loss succeeds and is `0`. -/
theorem YW1_loss_glas : loss_glas encW1 YW1 = some 0 := by
  rw [loss_glas_of_nonzero encW1 YW1
    (by intro i; fin_cases i; norm_num [Zdiag, Amat, Matrix.mul_apply, Fin.sum_univ_succ, YW1])]
  norm_num [frobSq, Vmat, Mmat, AZmat, Zinv, Amat, Zdiag, mean, div, Matrix.mul_apply,
    Fin.sum_univ_succ, YW1, encW1, Matrix.diagonal]

/-- On the batch `YW1` with the embedding `encW1` the latent co-occurrence
equals the mean-scaled normalized co-occurrence. -/
theorem YW1_V_eq_M : Vmat encW1 YW1 = Mmat YW1 := by
  ext i j
  fin_cases i
  fin_cases j
  norm_num [Vmat, Mmat, AZmat, Zinv, Amat, Zdiag, mean, Matrix.mul_apply,
    Fin.sum_univ_succ, YW1, encW1, Matrix.diagonal]

/-- Claim C1: on every batch whose label matrix `Y` is binary, the GLAS
regularizer loss equals `scale_constant * ‖V − 0.5·(A·Z⁻¹ + Z⁻¹·A)‖_F²`
with `v = encode_output(Y)`, `V = vᵀv`, `A = YᵀY`, `Z` the diagonal matrix
of the diagonal of `A` and `scale_constant = 1/2456²`; the computation
fails exactly when some diagonal entry of `Z` is zero.  The last conjunct
certifies that `Zinv` is the two-sided matrix inverse of `Z` whenever the
computation succeeds. -/
theorem C1_glas_regularizer_formula {s l : ℕ}
    (enc : Matrix (Fin s) (Fin l) ℚ → Matrix (Fin s) (Fin l) ℚ)
    (Y : Matrix (Fin s) (Fin l) ℚ) (hbin : ∀ i j, Y i j = 0 ∨ Y i j = 1) :
    (loss_glas enc Y = none ↔ ∃ i, Zdiag Y i = 0)
    ∧ ((∀ i, Zdiag Y i ≠ 0) →
        loss_glas enc Y = some ((1 / 2456 ^ 2 : ℚ) *
          frobSq (Vmat enc Y - (1 / 2 : ℚ) • (Amat Y * Zinv Y + Zinv Y * Amat Y))))
    ∧ ((∀ i, Zdiag Y i ≠ 0) → Zmat Y * Zinv Y = 1 ∧ Zinv Y * Zmat Y = 1) := by
  refine ⟨loss_glas_eq_none_iff enc Y, ?_, ?_⟩
  · intro hz
    rw [loss_glas_of_nonzero enc Y hz]
    rfl
  · intro hz
    constructor
    · unfold Zmat Zinv
      rw [Matrix.diagonal_mul_diagonal]
      have he : (fun i => Zdiag Y i * (Zdiag Y i)⁻¹) = fun _ => (1 : ℚ) :=
        funext fun i => mul_inv_cancel₀ (hz i)
      rw [he, Matrix.diagonal_one]
    · unfold Zmat Zinv
      rw [Matrix.diagonal_mul_diagonal]
      have he : (fun i => (Zdiag Y i)⁻¹ * Zdiag Y i) = fun _ => (1 : ℚ) :=
        funext fun i => inv_mul_cancel₀ (hz i)
      rw [he, Matrix.diagonal_one]

/-- Witness for C1 at the scenario batch `Yex` with the constant-zero
embedding `encYex`. -/
theorem C1_glas_regularizer_formula_witness :
    (∀ i j, Yex i j = 0 ∨ Yex i j = 1)
    ∧ (∀ i, Zdiag Yex i ≠ 0)
    ∧ loss_glas encYex Yex = some ((1 / 2456 ^ 2 : ℚ) *
        frobSq (Vmat encYex Yex - (1 / 2 : ℚ) • (Amat Yex * Zinv Yex + Zinv Yex * Amat Yex)))
    ∧ (Zmat Yex * Zinv Yex = 1 ∧ Zinv Yex * Zmat Yex = 1) :=
  ⟨Yex_binary, Yex_Zdiag_ne_zero,
    (C1_glas_regularizer_formula encYex Yex Yex_binary).2.1 Yex_Zdiag_ne_zero,
    (C1_glas_regularizer_formula encYex Yex Yex_binary).2.2 Yex_Zdiag_ne_zero⟩

/-- Claim C2: the label-subsampling block references the names `numpy` and
`batch_size`, neither of which is in scope at that line, and the values it
would produce (`t3`, `indices`, `y_sampled`) are never read by the loss
computation: the GLAS loss of lines 184-193 is the same function of the
full batch label matrix `y` whatever the sampling results are. -/
theorem C2_sampling_block_dead_code :
    ("numpy" ∉ scopeNamesAtSampling ∧ "batch_size" ∉ scopeNamesAtSampling)
    ∧ ("t3" ∉ glasComputationReads ∧ "indices" ∉ glasComputationReads
        ∧ "y_sampled" ∉ glasComputationReads ∧ "y" ∈ glasComputationReads)
    ∧ (∀ (σ₁ σ₂ σ₃ : Type) (t3 : σ₁) (indices : σ₂) (y_sampled : σ₃) (s l : ℕ)
        (enc : Matrix (Fin s) (Fin l) ℚ → Matrix (Fin s) (Fin l) ℚ)
        (Y : Matrix (Fin s) (Fin l) ℚ),
        loss_glas_after_sampling t3 indices y_sampled enc Y = loss_glas enc Y) := by
  refine ⟨⟨by decide, by decide⟩, ⟨by decide, by decide, by decide, by decide⟩, ?_⟩
  intro σ₁ σ₂ σ₃ t3 indices y_sampled s l enc Y
  rfl

/-- Claim C3: on every batch on which the step completes, the recorded
classification loss equals the binary cross-entropy plus `LAMBDA = 10`
times the GLAS loss, and exactly this combined value is the one passed to
`backward()`. -/
theorem C3_classification_loss_combination {s l : ℕ} (bce L : ℚ)
    (enc : Matrix (Fin s) (Fin l) ℚ → Matrix (Fin s) (Fin l) ℚ)
    (Y : Matrix (Fin s) (Fin l) ℚ) (h : loss_glas enc Y = some L) :
    ∃ r, batchStep bce enc Y = some r
      ∧ r.recorded_class_loss = bce + 10 * L
      ∧ r.net_loss = r.recorded_class_loss := by
  unfold batchStep
  rw [h]
  exact ⟨_, rfl, by norm_num [LAMBDA], rfl⟩

/-- Witness for C3 on the one-sample batch `YW1` with `bce = 1`. -/
theorem C3_classification_loss_combination_witness :
    loss_glas encW1 YW1 = some 0
    ∧ ∃ r, batchStep 1 encW1 YW1 = some r
      ∧ r.recorded_class_loss = 1 + 10 * 0
      ∧ r.net_loss = r.recorded_class_loss :=
  ⟨YW1_loss_glas, C3_classification_loss_combination 1 0 encW1 YW1 YW1_loss_glas⟩

/-- Claim C4 (code bug): with the logging interval configured as `0`, the
guard `all_iters % args.interval == 0` raises `ZeroDivisionError` on the
very first batch instead of proceeding silently: the modeled guard yields
`none` (the raised error) for every iteration count. -/
theorem C4_interval_zero_modulo_error : ∀ n : Int, intervalLogFires 0 n = none := by
  intro n
  simp [intervalLogFires, pyMod]

/-- Claim C5 (code bug): with the default logging interval `-1`, the guard
`all_iters % -1 == 0` holds on every iteration (every integer is divisible
by `-1`), so a progress log line is emitted on every batch — logging is
not disabled. -/
theorem C5_interval_default_fires_every_iteration :
    interval_default = -1 ∧ ∀ n : Int, intervalLogFires interval_default n = some true := by
  refine ⟨rfl, ?_⟩
  intro n
  simp [intervalLogFires, pyMod, interval_default, fdiv_negOne]

/-- Claim C6: whenever the GLAS computation completes with value `L`, the
loss is nonnegative, and it is `0` when the latent co-occurrence equals
the mean-scaled normalized raw co-occurrence. -/
theorem C6_glas_loss_nonneg {s l : ℕ}
    (enc : Matrix (Fin s) (Fin l) ℚ → Matrix (Fin s) (Fin l) ℚ)
    (Y : Matrix (Fin s) (Fin l) ℚ) (L : ℚ) (h : loss_glas enc Y = some L) :
    0 ≤ L ∧ (Vmat enc Y = Mmat Y → L = 0) := by
  have hz : ∀ i, Zdiag Y i ≠ 0 := by
    by_contra hc
    push_neg at hc
    obtain ⟨i, hi⟩ := hc
    have hn : loss_glas enc Y = none :=
      (loss_glas_eq_none_iff enc Y).mpr ⟨i, by simpa using hi⟩
    rw [hn] at h
    exact Option.noConfusion h
  have hL : L = div * frobSq (Vmat enc Y - Mmat Y) := by
    rw [loss_glas_of_nonzero enc Y hz] at h
    exact (Option.some.inj h).symm
  constructor
  · rw [hL]
    exact mul_nonneg (by norm_num [div]) (frobSq_nonneg _)
  · intro hVM
    rw [hL, hVM, sub_self]
    simp [frobSq]

/-- Witness for C6 on the one-sample batch `YW1`, where the loss is `0` and
the latent co-occurrence does equal the mean-scaled normalized one. -/
theorem C6_glas_loss_nonneg_witness :
    loss_glas encW1 YW1 = some 0
    ∧ Vmat encW1 YW1 = Mmat YW1
    ∧ (0 ≤ (0 : ℚ) ∧ (Vmat encW1 YW1 = Mmat YW1 → (0 : ℚ) = 0)) :=
  ⟨YW1_loss_glas, YW1_V_eq_M, C6_glas_loss_nonneg encW1 YW1 0 YW1_loss_glas⟩

/-- Claim C7: for every binary label matrix with no all-zero column, the
co-occurrence matrix `A = YᵀY` is symmetric with strictly positive
diagonal; in particular, for the scenario `Y = [[1,0,1],[0,1,1]]`,
`A = [[1,0,1],[0,1,1],[1,1,2]]`, its diagonal is `(1,1,2)`, and
`torch.inverse(Z)` succeeds (no singularity). -/
theorem C7_coocc_symmetric_pos_diagonal :
    (∀ (s l : ℕ) (Y : Matrix (Fin s) (Fin l) ℚ),
        (∀ i j, Y i j = 0 ∨ Y i j = 1) → (∀ j, ∃ i, Y i j ≠ 0) →
        (Amat Y)ᵀ = Amat Y ∧ ∀ j, 0 < Amat Y j j)
    ∧ Amat Yex = !![1,0,1; 0,1,1; 1,1,2]
    ∧ Zdiag Yex = ![1,1,2]
    ∧ (torchInverseDiag (Zdiag Yex)).isSome = true := by
  refine ⟨?_, ?_, ?_, ?_⟩
  · intro s l Y hbin hcol
    constructor
    · unfold Amat
      rw [Matrix.transpose_mul, Matrix.transpose_transpose]
    · intro j
      have hd : Amat Y j j = ∑ i, Y i j * Y i j := by
        unfold Amat
        rw [Matrix.mul_apply]
        simp [Matrix.transpose_apply]
      obtain ⟨i0, hi0⟩ := hcol j
      rw [hd]
      exact Finset.sum_pos' (fun i _ => mul_self_nonneg _)
        ⟨i0, Finset.mem_univ _, mul_self_pos.mpr hi0⟩
  · ext i j
    fin_cases i <;> fin_cases j <;>
      norm_num [Amat, Matrix.mul_apply, Fin.sum_univ_succ, Yex,
        Matrix.cons_val_zero, Matrix.cons_val_one, Matrix.head_cons,
        Matrix.vecHead, Matrix.vecTail]
  · funext i
    fin_cases i <;>
      norm_num [Zdiag, Amat, Matrix.mul_apply, Fin.sum_univ_succ, Yex,
        Matrix.vecHead, Matrix.vecTail]
  · unfold torchInverseDiag
    rw [if_pos Yex_Zdiag_ne_zero]
    rfl

/-- Witness for C7: the general part applied to the scenario matrix. -/
theorem C7_coocc_symmetric_pos_diagonal_witness :
    (∀ i j, Yex i j = 0 ∨ Yex i j = 1)
    ∧ (∀ j, ∃ i, Yex i j ≠ 0)
    ∧ ((Amat Yex)ᵀ = Amat Yex ∧ ∀ j, 0 < Amat Yex j j) :=
  ⟨Yex_binary, Yex_no_zero_col,
    C7_coocc_symmetric_pos_diagonal.1 2 3 Yex Yex_binary Yex_no_zero_col⟩

/-- Claim C8 counterexample: the per-epoch evaluation pass over the
training set iterates the training `DataLoader`, whose shuffle flag is
`True` — its iteration order is not fixed, contradicting the claim that
every evaluation pass is unshuffled. -/
theorem C8_eval_pass_shuffled_counterexample :
    ¬ ((passLoader 64 LoopPass.epochEval).shuffle = false) := by decide

/-- Claim C8 (amended): the order of batches within a training epoch is
shuffled, the final test-set evaluation iterates in fixed order, but the
per-epoch evaluation over the training set reuses the shuffled training
`DataLoader` and is shuffled as well. -/
theorem C8_amended_shuffle_flags (batch : ℕ) :
    (passLoader batch LoopPass.trainingEpoch).shuffle = true
    ∧ (passLoader batch LoopPass.epochEval).shuffle = true
    ∧ (passLoader batch LoopPass.testEval).shuffle = false :=
  ⟨rfl, rfl, rfl⟩

/-- Claim C9 counterexample: with all three run-end blocks enabled the
script performs plot, save, test-evaluation in that order; the test-set
evaluation does not precede plotting as the claim requires. -/
theorem C9_runend_order_counterexample :
    runEndActions true true true
      = [RunEndAction.plotGraphs, RunEndAction.saveModel, RunEndAction.testEval]
    ∧ ¬ ((runEndActions true true true).indexOf RunEndAction.testEval
          < (runEndActions true true true).indexOf RunEndAction.plotGraphs) := by
  decide

/-- Claim C9 (amended): the run-end actions occur in the order plotting
(if the plotting flag was set), then model saving (if a save directive was
given), then held-out test-set evaluation (if configured): whatever flags
are set, the performed sequence is a sublist of
`[plotGraphs, saveModel, testEval]`, and each action occurs exactly when
its flag is set. -/
theorem C9_amended_runend_order (plot save useTest : Bool) :
    List.Sublist (runEndActions plot save useTest)
      [RunEndAction.plotGraphs, RunEndAction.saveModel, RunEndAction.testEval]
    ∧ (RunEndAction.plotGraphs ∈ runEndActions plot save useTest ↔ plot = true)
    ∧ (RunEndAction.saveModel ∈ runEndActions plot save useTest ↔ save = true)
    ∧ (RunEndAction.testEval ∈ runEndActions plot save useTest ↔ useTest = true) := by
  cases plot <;> cases save <;> cases useTest <;> decide

/-- Claim C10: when a save directive is given, saving moves the selected
submodules to the CPU in place, so the test-set prediction that follows
runs with those submodules on the CPU (and hence not on any non-CPU
compute target configured for the run); without a save directive the
placement is untouched. -/
theorem C10_save_moves_submodules_to_cpu (opts : List SaveOption) (m : ModelState) :
    ((SaveOption.inputAE ∈ opts ∨ SaveOption.all ∈ opts) →
      (modelAtTestPrediction (some opts) m).input_encoder = Device.cpu
      ∧ (modelAtTestPrediction (some opts) m).input_decoder = Device.cpu)
    ∧ ((SaveOption.outputAE ∈ opts ∨ SaveOption.all ∈ opts) →
      (modelAtTestPrediction (some opts) m).output_encoder = Device.cpu
      ∧ (modelAtTestPrediction (some opts) m).output_decoder = Device.cpu)
    ∧ ((SaveOption.regressor ∈ opts ∨ SaveOption.all ∈ opts) →
      (modelAtTestPrediction (some opts) m).regressor = Device.cpu)
    ∧ modelAtTestPrediction none m = m := by
  refine ⟨?_, ?_, ?_, rfl⟩ <;>
    intro h <;>
      unfold modelAtTestPrediction saveModelBlock <;>
        by_cases h2 : SaveOption.outputAE ∈ opts ∨ SaveOption.all ∈ opts <;>
          by_cases h3 : SaveOption.regressor ∈ opts ∨ SaveOption.all ∈ opts <;>
            by_cases h1 : SaveOption.inputAE ∈ opts ∨ SaveOption.all ∈ opts <;>
              simp_all

/-- Witness for C10: saving with `--save_model all` from a run configured
on an accelerator leaves every submodule on the CPU at test-prediction
time, a device different from the configured one. -/
theorem C10_save_moves_submodules_to_cpu_witness :
    (SaveOption.all ∈ [SaveOption.all])
    ∧ ((modelAtTestPrediction (some [SaveOption.all]) mW).input_encoder = Device.cpu
        ∧ (modelAtTestPrediction (some [SaveOption.all]) mW).input_decoder = Device.cpu)
    ∧ ((modelAtTestPrediction (some [SaveOption.all]) mW).output_encoder = Device.cpu
        ∧ (modelAtTestPrediction (some [SaveOption.all]) mW).output_decoder = Device.cpu)
    ∧ (modelAtTestPrediction (some [SaveOption.all]) mW).regressor = Device.cpu
    ∧ mW.regressor ≠ Device.cpu :=
  ⟨by decide,
    (C10_save_moves_submodules_to_cpu [SaveOption.all] mW).1 (Or.inr (by decide)),
    (C10_save_moves_submodules_to_cpu [SaveOption.all] mW).2.1 (Or.inr (by decide)),
    (C10_save_moves_submodules_to_cpu [SaveOption.all] mW).2.2.1 (Or.inr (by decide)),
    by decide⟩

end TrainGlasXC
